import Mathlib

/-!
Shallow embedding of the request dispatcher and error resolver of
`src/python/catzilla/app.py` (class `Catzilla`), together with proofs about
the behaviour of `_handle_request` and `_handle_exception`.

Response bodies are represented structurally (`Body.text` for plain text,
`Body.json` for the field list a `JSONResponse` serializes) rather than as
byte strings, since no claim depends on the exact serialization.
-/

namespace Catzilla

/-- A response body: plain text, or the field list handed to `JSONResponse`. -/
inductive Body where
  | text (s : String)
  | json (fields : List (String × String))
  deriving Repr, DecidableEq

/-- Embedding of the `Response` value as used by `app.py`: status code,
content type, body, and a header map. -/
structure Response where
  status_code : Nat
  content_type : String
  body : Body
  headers : List (String × String)
  deriving Repr, DecidableEq

/-- Embedding of the `Request` object constructed in `_handle_request`:
method, full path (query string included), body, the content type read from
the headers (`none` when absent), and the path parameters set from the
router's match result. -/
structure Request where
  method : String
  path : String
  body : String
  content_type : Option String
  path_params : List (String × String)
  deriving Repr, DecidableEq

/-- A Python exception: its method-resolution-order chain of class names
(most specific first, e.g. `["ValueError", "Exception"]`) and the message
`str(e)` yields. -/
structure Exc where
  cls : List String
  msg : String
  deriving Repr, DecidableEq

/-- Python `isinstance(e, T)` for a class named `t`: the exception's class chain
contains `t`. -/
def isinstance (e : Exc) (t : String) : Bool :=
  e.cls.contains t

/-- Result of running a piece of user Python code: a value or a raised
exception. -/
inductive Outcome (α : Type) where
  | ok (v : α)
  | exc (e : Exc)
  deriving Repr

/-- The value a route handler returns, classified the way the normalizer in
`_handle_request` classifies it with `isinstance`: a `Response`, a `dict`,
a `str`, `None`, or any other type (named for the error message). -/
inductive PyValue where
  | resp (r : Response)
  | dict (d : List (String × String))
  | str (s : String)
  | pyNone
  | other (tyName : String)
  deriving Repr

/-- The Python type name of a handler return value (`type(x).__name__`;
for `other` the stored name, qualified as Python would show it). -/
def PyValue.tyName : PyValue → String
  | .resp _ => "Response"
  | .dict _ => "dict"
  | .str _ => "str"
  | .pyNone => "NoneType"
  | .other t => t

/-- The single-quote character, written by code point. -/
def squote : String := String.mk [Char.ofNat 39]

/-- How a Python f-string renders a type object: `{type(response)}` shows
as `<class ` + quoted type name + `>`. -/
def PyValue.type_repr (v : PyValue) : String :=
  "<class " ++ squote ++ v.tyName ++ squote ++ ">"

/-- Modelled from the spec: `JSONResponse` lives in `types.py`, which is not
part of the sources; per spec §4.4 it is a JSON response with the given
status code, content type `application/json`, and no extra headers. -/
def JSONResponse (data : List (String × String)) (status_code : Nat) : Response :=
  { status_code := status_code
    content_type := "application/json"
    body := .json data
    headers := [] }

/-- Modelled from the spec: `HTMLResponse` lives in `types.py`, which is not
part of the sources; per spec §4.4 it is a status-200 response with content
type `text/html; charset=utf-8`. -/
def HTMLResponse (s : String) : Response :=
  { status_code := 200
    content_type := "text/html; charset=utf-8"
    body := .text s
    headers := [] }

/-- A registered route, reduced to what `_handle_request` uses: its handler.
The handler takes the `Request` and either returns a value or raises. -/
structure Route where
  handler : Request → Outcome PyValue

/-- The router's `match` as `_handle_request` consumes it:
`route, path_params, allowed_methods = self.router.match(method, base_path)`.
`route` is `None` or a route; `allowed_methods` is the (possibly empty)
method list for the path. The router itself is C code outside the sources,
so it is kept abstract as a function of method and base path. -/
def Router : Type :=
  String → String → Option Route × List (String × String) × List String

/-- The error-handling state of a `Catzilla` app that `_handle_request` and
`_handle_exception` read: the `production` flag, `_exception_handlers`
(a Python dict, i.e. an insertion-ordered association list keyed by the
registered exception class name), `_not_found_handler` and
`_internal_error_handler`. -/
structure App where
  production : Bool
  exception_handlers : List (String × (Request → Exc → Outcome Response))
  not_found_handler : Option (Request → Outcome Response)
  internal_error_handler : Option (Request → Exc → Outcome Response)

/-- Embedding of `Catzilla._get_clean_error_response`: JSON body `{"error": message}`,
with a `"detail"` field added only when a detail is given and the app is
not in production mode. -/
def get_clean_error_response (app : App) (status_code : Nat) (message : String)
    (detail : Option String) : Response :=
  let error_data := [("error", message)]
  let error_data :=
    match detail with
    | some d => if !app.production then error_data ++ [("detail", d)] else error_data
    | none => error_data
  JSONResponse error_data status_code

/-- Embedding of `Catzilla._handle_exception`: walk `_exception_handlers` in insertion
order; the first entry whose class matches `isinstance` handles the
exception, with a production-shaped 500 fallback when that handler raises.
When no entry matches, try `_internal_error_handler` with the same kind of
fallback; when that is unset, emit the default 500. -/
def handle_exception (app : App) (request : Request) (exception : Exc) : Response :=
  match app.exception_handlers.find? (fun p => isinstance exception p.1) with
  | some (_, handler) =>
    match handler request exception with
    | .ok r => r
    | .exc handler_error =>
      if app.production then
        get_clean_error_response app 500 "Internal server error" none
      else
        { status_code := 500
          content_type := "text/plain"
          body := .text ("Exception handler failed: " ++ handler_error.msg)
          headers := [("X-Error-Detail", handler_error.msg)] }
  | none =>
    match app.internal_error_handler with
    | some h =>
      match h request exception with
      | .ok r => r
      | .exc handler_error =>
        if app.production then
          get_clean_error_response app 500 "Internal server error" none
        else
          { status_code := 500
            content_type := "text/plain"
            body := .text ("Internal error handler failed: " ++ handler_error.msg)
            headers := [("X-Error-Detail", handler_error.msg)] }
    | none =>
      if app.production then
        get_clean_error_response app 500 "Internal server error" none
      else
        { status_code := 500
          content_type := "text/plain"
          body := .text ("Internal Server Error: " ++ exception.msg)
          headers := [("X-Error-Detail", exception.msg)] }

/-- Lexicographic comparison of character lists by code point, as Python
compares strings. -/
def chars_le : List Char → List Char → Bool
  | [], _ => true
  | _ :: _, [] => false
  | c :: cs, d :: ds => if c < d then true else if d < c then false else chars_le cs ds

/-- Python string `<=`: lexicographic by code point. -/
def str_le (a b : String) : Bool :=
  chars_le a.data b.data

/-- Insert a string into a `str_le`-sorted list, keeping it sorted. -/
def insert_sorted (s : String) : List String → List String
  | [] => [s]
  | x :: xs => if str_le s x then s :: x :: xs else x :: insert_sorted s xs

/-- Embedding of Python `sorted` on a list of strings: lexicographic
ascending order (insertion sort; Python guarantees only the sorted order,
which is unique for a total order). -/
def pysorted (l : List String) : List String :=
  l.foldr insert_sorted []

/-- Embedding of Python `", ".join(l)`. -/
def join_comma_space : List String → String
  | [] => ""
  | [s] => s
  | s :: rest => s ++ ", " ++ join_comma_space rest

/-- The characters of a string before the first `?`, or all of them when
there is none. -/
def chars_before_qmark : List Char → List Char
  | [] => []
  | c :: cs => if c = '?' then [] else c :: chars_before_qmark cs

/-- Embedding of `base_path = path.split("?", 1)[0] if "?" in path else path`. -/
def base_path_of (path : String) : String :=
  if path.data.contains '?' then { data := chars_before_qmark path.data } else path

/-- The content-type allow-list of `_handle_request`. -/
def CT_ALLOW_LIST : List String :=
  ["application/json", "application/x-www-form-urlencoded", "text/plain",
   "multipart/form-data"]

/-- The gate `if content_type and content_type not in [...]`: true when the
content type is present, truthy (non-empty), and outside the allow-list. -/
def ct_rejected (ct : Option String) : Bool :=
  match ct with
  | none => false
  | some c => c != "" && !(CT_ALLOW_LIST.contains c)

/-- The 415 response `_handle_request` builds for a rejected content type. -/
def unsupported_media_response (ct : String) : Response :=
  { status_code := 415
    content_type := "text/plain"
    body := .text ("Unsupported Media Type: " ++ ct)
    headers := [("X-Error-Detail", "Content-Type " ++ ct ++ " is not supported")] }

/-- The normalization step of `_handle_request`: `Response` passes through,
`dict` becomes a `JSONResponse`, `str` becomes an `HTMLResponse`, and
anything else raises `TypeError`. -/
def normalize_response (v : PyValue) : Outcome Response :=
  match v with
  | .resp r => .ok r
  | .dict d => .ok (JSONResponse d 200)
  | .str s => .ok (HTMLResponse s)
  | _ =>
    .exc { cls := ["TypeError", "Exception", "BaseException"]
           msg := "Handler returned unsupported type " ++ v.type_repr ++
             ". Must return Response, dict, or str." }

/-- The `Request` object `_handle_request` constructs (after
`request.path_params = path_params`): full path kept, content type from the
headers, parameters from the router. -/
def mk_request (method path body : String) (ct : Option String)
    (params : List (String × String)) : Request :=
  { method := method, path := path, body := body
    content_type := ct, path_params := params }

/-- Embedding of `Catzilla._handle_request`, modelled as the list of responses sent to
the client (each `resp.send(client)` appends one element; `send` itself is
the out-of-scope I/O boundary and is taken not to raise). -/
def handle_request (app : App) (router : Router) (method path body : String)
    (ct : Option String) : List Response :=
  match router method (base_path_of path) with
  | (some route, path_params, _) =>
    if ct_rejected ct then
      [unsupported_media_response (ct.getD "")]
    else
      match route.handler (mk_request method path body ct path_params) with
      | .ok v =>
        match normalize_response v with
        | .ok response => [response]
        | .exc e => [handle_exception app (mk_request method path body ct path_params) e]
      | .exc e => [handle_exception app (mk_request method path body ct path_params) e]
  | (none, path_params, allowed_methods) =>
    if allowed_methods ≠ [] then
      if app.production then
        [get_clean_error_response app 405 "Method not allowed"
          (some ("Allowed methods: " ++
            join_comma_space (pysorted allowed_methods)))]
      else
        [{ status_code := 405
           content_type := "text/plain"
           body := .text ("Method Not Allowed: " ++ method ++ " " ++ path)
           headers := [("Allow",
             join_comma_space (pysorted allowed_methods)),
             ("X-Error-Path", path)] }]
    else
      match app.not_found_handler with
      | some h =>
        match h (mk_request method path body ct path_params) with
        | .ok not_found_resp => [not_found_resp]
        | .exc handler_error =>
          if app.production then
            [get_clean_error_response app 404 "Not found" none]
          else
            [{ status_code := 500
               content_type := "text/plain"
               body := .text ("404 handler failed: " ++ handler_error.msg)
               headers := [("X-Error-Detail", handler_error.msg)] }]
      | none =>
        if app.production then
          [get_clean_error_response app 404 "Not found" none]
        else
          [{ status_code := 404
             content_type := "text/plain"
             body := .text ("Not Found: " ++ method ++ " " ++ path)
             headers := [("X-Error-Path", path)] }]


/-! ### Concrete fixtures used by witnesses and counterexamples -/

/-- A small plain-text response used as a distinguishable handler output. -/
def resp_of (n : Nat) (tag : String) : Response :=
  { status_code := n, content_type := "text/plain", body := .text tag, headers := [] }

/-- A raised `ValueError`. -/
def value_error : Exc :=
  { cls := ["ValueError", "Exception", "BaseException"], msg := "bad value" }

/-- A plain request fixture. -/
def req0 : Request := mk_request "GET" "/items/1" "" none []

/-- An error handler registered for the broad kind `Exception`. -/
def broad_handler : Request → Exc → Outcome Response :=
  fun _ _ => .ok (resp_of 400 "broad")

/-- An error handler registered for the specific kind `ValueError`. -/
def specific_handler : Request → Exc → Outcome Response :=
  fun _ _ => .ok (resp_of 422 "specific")

/-- A handler for `KeyError`, never matching a `ValueError`. -/
def key_error_handler : Request → Exc → Outcome Response :=
  fun _ _ => .ok (resp_of 404 "key")

/-- An error handler that itself raises. -/
def raising_handler : Request → Exc → Outcome Response :=
  fun _ _ => .exc { cls := ["RuntimeError", "Exception", "BaseException"], msg := "handler boom" }

/-- An internal-error handler returning a distinctive response. -/
def teapot_handler : Request → Exc → Outcome Response :=
  fun _ _ => .ok (resp_of 418 "teapot")

/-- Debug-mode app registering the broad `Exception` handler before the
specific `ValueError` one. -/
def app_broad_first : App :=
  { production := false
    exception_handlers := [("Exception", broad_handler), ("ValueError", specific_handler)]
    not_found_handler := none
    internal_error_handler := none }

/-- The same two handlers registered in the opposite order. -/
def app_specific_first : App :=
  { production := false
    exception_handlers := [("ValueError", specific_handler), ("Exception", broad_handler)]
    not_found_handler := none
    internal_error_handler := none }

/-- App with a non-matching `KeyError` entry registered before the matching
ones. -/
def app_key_then_value : App :=
  { production := false
    exception_handlers :=
      [("KeyError", key_error_handler), ("ValueError", specific_handler),
       ("Exception", broad_handler)]
    not_found_handler := none
    internal_error_handler := none }

/-- App whose `ValueError` handler raises while an internal-error handler is
registered. -/
def app_failing_per_type : App :=
  { production := false
    exception_handlers := [("ValueError", raising_handler)]
    not_found_handler := none
    internal_error_handler := some teapot_handler }

/-- Production-mode app with no custom error handlers. -/
def app_prod : App :=
  { production := true
    exception_handlers := []
    not_found_handler := none
    internal_error_handler := none }

/-- Debug-mode app with no custom error handlers. -/
def app_debug : App :=
  { production := false
    exception_handlers := []
    not_found_handler := none
    internal_error_handler := none }

/-- A 404 handler that raises. -/
def raising_not_found : Request → Outcome Response :=
  fun _ => .exc { cls := ["RuntimeError", "Exception", "BaseException"], msg := "nf boom" }

/-- Debug-mode app with a raising `not_found_handler`. -/
def app_debug_nf : App :=
  { production := false
    exception_handlers := []
    not_found_handler := some raising_not_found
    internal_error_handler := none }

/-- A router signalling method-not-allowed with `PUT` and `GET` registered. -/
def router_mna : Router := fun _ _ => (none, [], ["PUT", "GET"])

/-- A router that never matches anything. -/
def router_nf : Router := fun _ _ => (none, [], [])

/-- A route whose handler returns `None`. -/
def none_route : Route := ⟨fun _ => .ok .pyNone⟩

/-- A router that always matches `none_route`. -/
def router_none_value : Router := fun _ _ => (some none_route, [], [])

/-- A route whose handler returns a fixed 200 response. -/
def ok_route : Route := ⟨fun _ => .ok (.resp (resp_of 200 "ok"))⟩

/-- A router that always matches `ok_route` with one path parameter. -/
def router_ok : Router := fun _ _ => (some ok_route, [("id", "1")], [])

/-- A route whose handler echoes the request path it was given. -/
def echo_path_route : Route := ⟨fun req => .ok (.resp (resp_of 200 req.path))⟩

/-- A router matching `echo_path_route` exactly at base path `/a`. -/
def router_echo : Router :=
  fun _ bp => if bp = "/a" then (some echo_path_route, [("k", "v")], []) else (none, [], [])

/-- Absence of the `X-Error-Detail` header in a response. -/
def no_error_detail (r : Response) : Prop :=
  r.headers.lookup "X-Error-Detail" = none

/-- The status codes of a list of responses. -/
def sent_statuses (rs : List Response) : List Nat :=
  rs.map Response.status_code

/-- The `Allow` header values of a list of responses. -/
def allow_headers (rs : List Response) : List (Option String) :=
  rs.map (fun r => r.headers.lookup "Allow")

/-! ### Helper lemmas -/

/-- In a list split as `pre ++ a :: post` where nothing in `pre` satisfies
the predicate and `a` does, `find?` returns `a`. -/
theorem find_first_of_forall_not {a : Type} (p : a → Bool) (pre post : List a) (x : a)
    (hpre : ∀ y ∈ pre, p y = false) (hx : p x = true) :
    (pre ++ x :: post).find? p = some x := by
  induction pre with
  | nil => simp [List.find?_cons_of_pos, hx]
  | cons z zs ih =>
    have hz : p z = false := hpre z (List.mem_cons_self z zs)
    rw [List.cons_append, List.find?_cons_of_neg _ (by simp [hz])]
    exact ih (fun y hy => hpre y (List.mem_cons_of_mem z hy))

/-! ### C1 -/

/-- C1 is false on the code: with the same per-type handlers registered in
two different orders (`Exception` before `ValueError`, and the reverse), a
raised `ValueError` gets the first-registered handler, so the broad
`Exception` handler wins when registered first — selection is neither
most-specific-first nor order-independent. -/
theorem C1_counterexample :
    handle_exception app_broad_first req0 value_error = resp_of 400 "broad" ∧
    handle_exception app_specific_first req0 value_error = resp_of 422 "specific" ∧
    resp_of 400 "broad" ≠ resp_of 422 "specific" :=
  ⟨rfl, rfl, by decide⟩

/-- C1 (amended): for every raised exception, the error resolver walks the
per-type handlers in registration order and selects the first handler whose
registered kind matches the exception (`isinstance`), regardless of how
specific later entries are; the selected handler's response is returned. -/
theorem C1_first_registered_match_wins (app : App) (req : Request) (e : Exc)
    (pre post : List (String × (Request → Exc → Outcome Response)))
    (t : String) (h : Request → Exc → Outcome Response)
    (hsplit : app.exception_handlers = pre ++ (t, h) :: post)
    (hpre : ∀ q ∈ pre, isinstance e q.1 = false)
    (ht : isinstance e t = true)
    (r : Response) (hr : h req e = .ok r) :
    handle_exception app req e = r := by
  have hfind : (pre ++ (t, h) :: post).find? (fun q => isinstance e q.1) = some (t, h) :=
    find_first_of_forall_not _ pre post (t, h) hpre ht
  unfold handle_exception
  rw [hsplit, hfind]
  simp only [hr]

/-- Witness for C1: with `KeyError` (non-matching), then `ValueError`, then
`Exception` registered, a raised `ValueError` is handled by the
first-registered matching entry, the `ValueError` handler. -/
theorem C1_first_registered_match_wins_witness :
    handle_exception app_key_then_value req0 value_error = resp_of 422 "specific" :=
  C1_first_registered_match_wins app_key_then_value req0 value_error
    [("KeyError", key_error_handler)] [("Exception", broad_handler)]
    "ValueError" specific_handler rfl
    (by intro q hq
        simp only [List.mem_singleton] at hq
        subst hq
        decide)
    (by decide) (resp_of 422 "specific") rfl

/-! ### C2 -/

/-- C2 is false on the code: the app registers a `ValueError` handler that
raises and an internal-error handler returning a 418 response; on a raised
`ValueError` the resolver does not retry via the internal-error handler (no
418) but falls straight back to the default 500. -/
theorem C2_counterexample :
    handle_exception app_failing_per_type req0 value_error ≠ resp_of 418 "teapot" ∧
    handle_exception app_failing_per_type req0 value_error =
      { status_code := 500, content_type := "text/plain",
        body := .text "Exception handler failed: handler boom",
        headers := [("X-Error-Detail", "handler boom")] } :=
  ⟨by decide, rfl⟩

/-- C2 (amended): when the chosen per-type handler raises, the resolver
falls back directly to the default 500 response (clean JSON in production,
a text body in debug) without consulting the internal-error handler — the
conclusion does not depend on `internal_error_handler` at all; that handler
is only used when no per-type handler matches. -/
theorem C2_failed_handler_falls_to_default (app : App) (req : Request) (e : Exc)
    (pre post : List (String × (Request → Exc → Outcome Response)))
    (t : String) (h : Request → Exc → Outcome Response)
    (hsplit : app.exception_handlers = pre ++ (t, h) :: post)
    (hpre : ∀ q ∈ pre, isinstance e q.1 = false)
    (ht : isinstance e t = true)
    (he : Exc) (hr : h req e = .exc he) :
    handle_exception app req e =
      (if app.production then
        JSONResponse [("error", "Internal server error")] 500
      else
        { status_code := 500, content_type := "text/plain",
          body := .text ("Exception handler failed: " ++ he.msg),
          headers := [("X-Error-Detail", he.msg)] }) := by
  have hfind : (pre ++ (t, h) :: post).find? (fun q => isinstance e q.1) = some (t, h) :=
    find_first_of_forall_not _ pre post (t, h) hpre ht
  unfold handle_exception
  rw [hsplit, hfind]
  simp only [hr]
  rfl

/-- Witness for C2: the debug-mode app whose `ValueError` handler raises
gets the default debug 500, not the internal-error handler response. -/
theorem C2_failed_handler_falls_to_default_witness :
    handle_exception app_failing_per_type req0 value_error =
      (if app_failing_per_type.production then
        JSONResponse [("error", "Internal server error")] 500
      else
        { status_code := 500, content_type := "text/plain",
          body := .text ("Exception handler failed: " ++ "handler boom"),
          headers := [("X-Error-Detail", "handler boom")] }) :=
  C2_failed_handler_falls_to_default app_failing_per_type req0 value_error
    [] [] "ValueError" raising_handler rfl
    (by intro q hq; simp at hq) (by decide)
    { cls := ["RuntimeError", "Exception", "BaseException"], msg := "handler boom" } rfl

/-! ### C3 -/

/-- C3 is false on the code: in production mode a method-not-allowed request
produces a 405 JSON response with no headers at all, in particular no
`Allow` header. -/
theorem C3_counterexample :
    handle_request app_prod router_mna "POST" "/x" "" none =
      [JSONResponse [("error", "Method not allowed")] 405] ∧
    (JSONResponse [("error", "Method not allowed")] 405).headers.lookup "Allow" = none :=
  ⟨rfl, rfl⟩

/-- C3 (amended): a request whose path exists but whose method has no route
gets status 405 in both modes, but the `Allow` header (allowed methods
sorted lexicographically, comma+space separated) is present only in debug
mode; the production 405 is a clean JSON response without it. -/
theorem C3_allow_header_only_in_debug (app : App) (router : Router)
    (m p b : String) (ct : Option String)
    (ps : List (String × String)) (al : List String)
    (hm : router m (base_path_of p) = (none, ps, al))
    (hal : al ≠ []) :
    sent_statuses (handle_request app router m p b ct) = [405] ∧
    (app.production = false →
      allow_headers (handle_request app router m p b ct) =
        [some (join_comma_space (pysorted al))]) ∧
    (app.production = true →
      allow_headers (handle_request app router m p b ct) = [none]) := by
  have hb : handle_request app router m p b ct =
      if app.production then
        [get_clean_error_response app 405 "Method not allowed"
          (some ("Allowed methods: " ++ join_comma_space (pysorted al)))]
      else
        [{ status_code := 405, content_type := "text/plain",
           body := .text ("Method Not Allowed: " ++ m ++ " " ++ p),
           headers := [("Allow", join_comma_space (pysorted al)), ("X-Error-Path", p)] }] := by
    unfold handle_request
    simp only [hm]
    rw [if_pos hal]
  refine ⟨?_, ?_, ?_⟩
  · rw [hb]
    cases app.production <;> simp [sent_statuses, get_clean_error_response, JSONResponse]
  · intro hp
    rw [hb, hp]
    simp [allow_headers, List.lookup]
  · intro hp
    rw [hb, hp]
    simp [allow_headers, get_clean_error_response, JSONResponse]

/-- Witness for C3: in debug mode the 405 for a path registered for `PUT`
and `GET` has status 405 and the sorted `Allow` value. -/
theorem C3_allow_header_only_in_debug_witness :
    sent_statuses (handle_request app_debug router_mna "POST" "/x" "" none) = [405] ∧
    allow_headers (handle_request app_debug router_mna "POST" "/x" "" none) =
      [some (join_comma_space (pysorted ["PUT", "GET"]))] :=
  ⟨(C3_allow_header_only_in_debug app_debug router_mna "POST" "/x" "" none [] ["PUT", "GET"]
      rfl (by decide)).1,
   (C3_allow_header_only_in_debug app_debug router_mna "POST" "/x" "" none [] ["PUT", "GET"]
      rfl (by decide)).2.1 rfl⟩

/-! ### C4 -/

/-- C4 is false on the code: in debug mode, when the registered
`not_found_handler` raises, the fallback sent is a 500 text response about
the handler failure, not a 404 not-found response. -/
theorem C4_counterexample :
    handle_request app_debug_nf router_nf "GET" "/zzz" "" none =
      [{ status_code := 500, content_type := "text/plain",
         body := .text "404 handler failed: nf boom",
         headers := [("X-Error-Detail", "nf boom")] }] ∧
    sent_statuses (handle_request app_debug_nf router_nf "GET" "/zzz" "" none) = [500] :=
  ⟨rfl, rfl⟩

/-- C4 (amended): on a request matching no route, a registered
`not_found_handler` is invoked and its response sent; if it raises, the
fallback is the clean 404 JSON in production but a 500 text response
describing the handler failure in debug mode. -/
theorem C4_not_found_handler_with_fallback (app : App) (router : Router)
    (m p b : String) (ct : Option String)
    (ps : List (String × String)) (h : Request → Outcome Response)
    (hm : router m (base_path_of p) = (none, ps, []))
    (hh : app.not_found_handler = some h) :
    (∀ r, h (mk_request m p b ct ps) = .ok r →
      handle_request app router m p b ct = [r]) ∧
    (∀ e, h (mk_request m p b ct ps) = .exc e →
      handle_request app router m p b ct =
        (if app.production then [JSONResponse [("error", "Not found")] 404]
         else [{ status_code := 500, content_type := "text/plain",
                 body := .text ("404 handler failed: " ++ e.msg),
                 headers := [("X-Error-Detail", e.msg)] }])) := by
  constructor
  · intro r hr
    unfold handle_request
    simp only [hm]
    rw [if_neg (by simp), hh]
    simp only [hr]
  · intro e he
    unfold handle_request
    simp only [hm]
    rw [if_neg (by simp), hh]
    simp only [he]
    rfl

/-- Witness for C4: the debug app with the raising 404 handler receives the
500 fallback named by the amended claim. -/
theorem C4_not_found_handler_with_fallback_witness :
    handle_request app_debug_nf router_nf "GET" "/zzz" "" none =
      (if app_debug_nf.production then [JSONResponse [("error", "Not found")] 404]
       else [{ status_code := 500, content_type := "text/plain",
               body := .text ("404 handler failed: " ++ "nf boom"),
               headers := [("X-Error-Detail", "nf boom")] }]) :=
  (C4_not_found_handler_with_fallback app_debug_nf router_nf "GET" "/zzz" "" none []
      raising_not_found rfl rfl).2
    { cls := ["RuntimeError", "Exception", "BaseException"], msg := "nf boom" } rfl

/-! ### C5 -/

/-- C5 is false on the code: a matched handler returning `None` does not get
an empty 204 response; the normalizer raises `TypeError` (its message
rendering `type(None)` as `<class ` + quoted `NoneType` + `>`), which the
default debug error path turns into a 500. -/
theorem C5_counterexample :
    handle_request app_debug router_none_value "GET" "/n" "" none =
      [{ status_code := 500, content_type := "text/plain",
         body := .text ("Internal Server Error: Handler returned unsupported type <class " ++
           squote ++ "NoneType" ++ squote ++ ">. Must return Response, dict, or str."),
         headers := [("X-Error-Detail", "Handler returned unsupported type <class " ++
           squote ++ "NoneType" ++ squote ++ ">. Must return Response, dict, or str.")] }] ∧
    sent_statuses (handle_request app_debug router_none_value "GET" "/n" "" none) ≠ [204] :=
  ⟨rfl, by decide⟩

/-- C5 (amended): a matched handler returning `None` makes the response
normalizer raise `TypeError`, which is routed into the error resolver
(`_handle_exception`); no 204 normalization exists. -/
theorem C5_none_return_goes_to_error_resolver (app : App) (router : Router)
    (m p b : String) (ct : Option String)
    (route : Route) (ps : List (String × String)) (al : List String)
    (hm : router m (base_path_of p) = (some route, ps, al))
    (hct : ct_rejected ct = false)
    (hh : route.handler (mk_request m p b ct ps) = .ok .pyNone) :
    handle_request app router m p b ct =
      [handle_exception app (mk_request m p b ct ps)
        { cls := ["TypeError", "Exception", "BaseException"]
          msg := "Handler returned unsupported type <class " ++ squote ++ "NoneType" ++ squote ++ ">. Must return Response, dict, or str." }] := by
  unfold handle_request
  simp only [hm]
  rw [if_neg (by simp [hct])]
  simp only [hh]
  rfl

/-- Witness for C5: the debug app with a route handler returning `None`
sends exactly the error-resolver response for the `TypeError`. -/
theorem C5_none_return_goes_to_error_resolver_witness :
    handle_request app_debug router_none_value "GET" "/n" "" none =
      [handle_exception app_debug (mk_request "GET" "/n" "" none [])
        { cls := ["TypeError", "Exception", "BaseException"]
          msg := "Handler returned unsupported type <class " ++ squote ++ "NoneType" ++ squote ++ ">. Must return Response, dict, or str." }] :=
  C5_none_return_goes_to_error_resolver app_debug router_none_value "GET" "/n" "" none
    none_route [] [] rfl rfl rfl

/-! ### C6 -/

/-- C6: a matched request with a content type outside the allow-list is
answered 415 without the route handler being invoked (the 415 is the output
whatever the route's handler is), and a matched request with no content
type at all passes the gate through to the handler. -/
theorem C6_content_type_gate (app : App) (router : Router) (m p b : String)
    (route : Route) (ps : List (String × String)) (al : List String)
    (hm : router m (base_path_of p) = (some route, ps, al)) :
    (∀ ct : String, ct ≠ "" → CT_ALLOW_LIST.contains ct = false →
      handle_request app router m p b (some ct) = [unsupported_media_response ct]) ∧
    (∀ r : Response, route.handler (mk_request m p b none ps) = .ok (.resp r) →
      handle_request app router m p b none = [r]) := by
  constructor
  · intro ct hne hnotin
    unfold handle_request
    simp only [hm]
    rw [if_pos (show ct_rejected (some ct) = true by
      simp only [ct_rejected, hnotin, Bool.not_false, Bool.and_true, bne_iff_ne, ne_eq]
      exact hne)]
    rfl
  · intro r hr
    unfold handle_request
    simp only [hm]
    rw [if_neg (by simp [ct_rejected])]
    simp only [hr]
    rfl

/-- Witness for C6: `application/xml` on a matched route yields the 415 and
the handler's 200 is sent when the request has no content type. -/
theorem C6_content_type_gate_witness :
    handle_request app_debug router_ok "GET" "/items/1" "" (some "application/xml") =
      [unsupported_media_response "application/xml"] ∧
    handle_request app_debug router_ok "GET" "/items/1" "" none = [resp_of 200 "ok"] :=
  ⟨(C6_content_type_gate app_debug router_ok "GET" "/items/1" "" ok_route [("id", "1")] []
      rfl).1 "application/xml" (by decide) (by decide),
   (C6_content_type_gate app_debug router_ok "GET" "/items/1" "" ok_route [("id", "1")] []
      rfl).2 (resp_of 200 "ok") rfl⟩

/-! ### C8 -/

/-- C8: route matching consumes only the part of the path before the first
`?` — a second path with the same base resolves to the same route and path
parameters — while the `Request` handed to the handler keeps the full path
with its query string. -/
theorem C8_query_ignored_for_matching (app : App) (router : Router)
    (m p1 p2 b : String) (ct : Option String)
    (route : Route) (ps : List (String × String)) (al : List String)
    (hq : base_path_of p1 = base_path_of p2)
    (hm : router m (base_path_of p1) = (some route, ps, al))
    (hct : ct_rejected ct = false) :
    router m (base_path_of p2) = (some route, ps, al) ∧
    (∀ r1, route.handler (mk_request m p1 b ct ps) = .ok (.resp r1) →
      handle_request app router m p1 b ct = [r1]) ∧
    (∀ r2, route.handler (mk_request m p2 b ct ps) = .ok (.resp r2) →
      handle_request app router m p2 b ct = [r2]) ∧
    (mk_request m p1 b ct ps).path = p1 := by
  refine ⟨hq ▸ hm, ?_, ?_, rfl⟩
  · intro r1 h1
    unfold handle_request
    simp only [hm]
    rw [if_neg (by simp [hct])]
    simp only [h1]
    rfl
  · intro r2 h2
    unfold handle_request
    simp only [hq ▸ hm]
    rw [if_neg (by simp [hct])]
    simp only [h2]
    rfl

/-- Witness for C8: `/a?x=1` and `/a?y=2` both resolve to the echo route at
base path `/a`, and the handler observes each full path. -/
theorem C8_query_ignored_for_matching_witness :
    handle_request app_debug router_echo "GET" "/a?x=1" "" none = [resp_of 200 "/a?x=1"] ∧
    handle_request app_debug router_echo "GET" "/a?y=2" "" none = [resp_of 200 "/a?y=2"] ∧
    (mk_request "GET" "/a?x=1" "" none [("k", "v")]).path = "/a?x=1" :=
  ⟨(C8_query_ignored_for_matching app_debug router_echo "GET" "/a?x=1" "/a?y=2" "" none
      echo_path_route [("k", "v")] [] rfl rfl rfl).2.1 (resp_of 200 "/a?x=1") rfl,
   (C8_query_ignored_for_matching app_debug router_echo "GET" "/a?x=1" "/a?y=2" "" none
      echo_path_route [("k", "v")] [] rfl rfl rfl).2.2.1 (resp_of 200 "/a?y=2") rfl,
   (C8_query_ignored_for_matching app_debug router_echo "GET" "/a?x=1" "/a?y=2" "" none
      echo_path_route [("k", "v")] [] rfl rfl rfl).2.2.2⟩

/-! ### C9 -/

/-- C9: on every control path — success, 415 gate, normalization failure,
handler exception, failing error handler, method-not-allowed, not-found and
failing not-found handler — the dispatcher sends exactly one response. -/
theorem C9_exactly_one_response (app : App) (router : Router)
    (m p b : String) (ct : Option String) :
    (handle_request app router m p b ct).length = 1 := by
  unfold handle_request
  repeat' split
  all_goals rfl

/-! ### C10 -/

/-- C10: the content-type gate runs only after a successful match — an
unmatched request is answered 405 (method known for the path) or 404
(default not-found) for every content type, including ones outside the
allow-list; it is never answered 415. -/
theorem C10_gate_only_after_match (app : App) (router : Router)
    (m p b : String) (ps : List (String × String)) (al : List String)
    (hm : router m (base_path_of p) = (none, ps, al)) :
    (al ≠ [] → ∀ ct : Option String,
      sent_statuses (handle_request app router m p b ct) = [405]) ∧
    (al = [] → app.not_found_handler = none → ∀ ct : Option String,
      sent_statuses (handle_request app router m p b ct) = [404]) := by
  constructor
  · intro hal ct
    unfold handle_request
    simp only [hm]
    rw [if_pos hal]
    cases app.production <;> simp [sent_statuses, get_clean_error_response, JSONResponse]
  · intro hal hnf ct
    unfold handle_request
    simp only [hm]
    rw [if_neg (by simp [hal]), hnf]
    cases app.production <;> simp [sent_statuses, get_clean_error_response, JSONResponse]

/-- Witness for C10: with content type `application/xml` (outside the
allow-list), an unmatched method gets 405 and an unmatched path gets 404,
never 415. -/
theorem C10_gate_only_after_match_witness :
    sent_statuses (handle_request app_debug router_mna "GET" "/x" "" (some "application/xml")) = [405] ∧
    sent_statuses (handle_request app_debug router_nf "GET" "/x" "" (some "application/xml")) = [404] :=
  ⟨(C10_gate_only_after_match app_debug router_mna "GET" "/x" "" [] ["PUT", "GET"]
      rfl).1 (by decide) (some "application/xml"),
   (C10_gate_only_after_match app_debug router_nf "GET" "/x" "" [] []
      rfl).2 rfl rfl (some "application/xml")⟩

/-! ### C7 -/

/-- C7 is false on the code: in production mode, a matched request with a
disallowed content type receives the 415 response, which does carry the
`X-Error-Detail` header. -/
theorem C7_counterexample :
    handle_request app_prod router_ok "GET" "/items/1" "" (some "application/xml") =
      [unsupported_media_response "application/xml"] ∧
    (unsupported_media_response "application/xml").headers.lookup "X-Error-Detail" =
      some "Content-Type application/xml is not supported" :=
  ⟨rfl, rfl⟩

/-- In production mode the error resolver itself never adds
`X-Error-Detail`: its output lacks the header whenever the successful
responses of the user-registered handlers lack it. -/
theorem handle_exception_no_detail_in_production (app : App) (req : Request) (e : Exc)
    (hprod : app.production = true)
    (hexc : ∀ q ∈ app.exception_handlers, ∀ r, q.2 req e = .ok r → no_error_detail r)
    (hint : ∀ h, app.internal_error_handler = some h →
      ∀ r, h req e = .ok r → no_error_detail r) :
    no_error_detail (handle_exception app req e) := by
  unfold handle_exception
  split
  next fst handler hfind =>
    cases hout : handler req e with
    | ok r =>
      simp only [hout]
      exact hexc (fst, handler) (List.mem_of_find?_eq_some hfind) r hout
    | exc he =>
      simp [hout, hprod, no_error_detail, get_clean_error_response, JSONResponse]
  next hfind =>
    split
    next h hih =>
      cases hout : h req e with
      | ok r =>
        simp only [hout]
        exact hint h hih r hout
      | exc he =>
        simp [hout, hprod, no_error_detail, get_clean_error_response, JSONResponse]
    next hih =>
      simp [hprod, no_error_detail, get_clean_error_response, JSONResponse]

/-- C7 (amended): in production mode no response built by the dispatcher or
the error resolver carries `X-Error-Detail` — with one exception: the 415
unsupported-media-type response carries the header in production too, since
it is attached there unconditionally. Provided the user-registered handlers
do not set the header in their own responses, every sent response either
has status 415 or lacks the header. -/
theorem C7_no_detail_in_production_except_415 (app : App) (router : Router)
    (m p b : String) (ct : Option String)
    (hprod : app.production = true)
    (hroute : ∀ rt ps al, router m (base_path_of p) = (some rt, ps, al) →
      ∀ req r, rt.handler req = .ok (.resp r) → no_error_detail r)
    (hexc : ∀ q ∈ app.exception_handlers, ∀ req e r, q.2 req e = .ok r → no_error_detail r)
    (hint : ∀ h, app.internal_error_handler = some h →
      ∀ req e r, h req e = .ok r → no_error_detail r)
    (hnf : ∀ h, app.not_found_handler = some h →
      ∀ req r, h req = .ok r → no_error_detail r) :
    ∀ r ∈ handle_request app router m p b ct, r.status_code = 415 ∨ no_error_detail r := by
  intro r hr
  unfold handle_request at hr
  rcases hrm : router m (base_path_of p) with ⟨_ | route, ps, al⟩ <;> simp only [hrm] at hr
  · -- no route matched
    by_cases hal : al ≠ []
    · rw [if_pos hal, hprod, if_pos rfl, List.mem_singleton] at hr
      subst hr
      right
      simp [no_error_detail, get_clean_error_response, JSONResponse]
    · rw [if_neg hal] at hr
      cases hnfh : app.not_found_handler with
      | none =>
        simp only [hnfh] at hr
        rw [hprod, if_pos rfl, List.mem_singleton] at hr
        subst hr
        right
        simp [no_error_detail, get_clean_error_response, JSONResponse]
      | some h =>
        simp only [hnfh] at hr
        cases hout : h (mk_request m p b ct ps) with
        | ok r2 =>
          simp only [hout, List.mem_singleton] at hr
          subst hr
          exact Or.inr (hnf h hnfh _ _ hout)
        | exc he =>
          simp only [hout] at hr
          rw [hprod, if_pos rfl, List.mem_singleton] at hr
          subst hr
          right
          simp [no_error_detail, get_clean_error_response, JSONResponse]
  · -- route matched
    by_cases hct : ct_rejected ct = true
    · rw [if_pos hct, List.mem_singleton] at hr
      subst hr
      left
      rfl
    · rw [if_neg hct] at hr
      cases hout : route.handler (mk_request m p b ct ps) with
      | ok v =>
        simp only [hout] at hr
        cases v with
        | resp r2 =>
          simp only [normalize_response, List.mem_singleton] at hr
          subst hr
          exact Or.inr (hroute route ps al hrm _ _ hout)
        | dict d =>
          simp only [normalize_response, List.mem_singleton] at hr
          subst hr
          right
          simp [no_error_detail, JSONResponse]
        | str s =>
          simp only [normalize_response, List.mem_singleton] at hr
          subst hr
          right
          simp [no_error_detail, HTMLResponse]
        | pyNone =>
          simp only [normalize_response, List.mem_singleton] at hr
          subst hr
          right
          exact handle_exception_no_detail_in_production app _ _ hprod
            (fun q hq r2 => hexc q hq _ _ r2)
            (fun h hih r2 => hint h hih _ _ r2)
        | other ty =>
          simp only [normalize_response, List.mem_singleton] at hr
          subst hr
          right
          exact handle_exception_no_detail_in_production app _ _ hprod
            (fun q hq r2 => hexc q hq _ _ r2)
            (fun h hih r2 => hint h hih _ _ r2)
      | exc e =>
        simp only [hout, List.mem_singleton] at hr
        subst hr
        right
        exact handle_exception_no_detail_in_production app _ _ hprod
          (fun q hq r2 => hexc q hq _ _ r2)
          (fun h hih r2 => hint h hih _ _ r2)

/-- Witness for C7: the production 404 default carries no `X-Error-Detail`
(its status is not 415, so the second disjunct holds of it). -/
theorem C7_no_detail_in_production_except_415_witness :
    (JSONResponse [("error", "Not found")] 404).status_code = 415 ∨
      no_error_detail (JSONResponse [("error", "Not found")] 404) :=
  C7_no_detail_in_production_except_415 app_prod router_nf "GET" "/x" "" (some "application/xml")
    rfl
    (by intro rt ps al hcontra; simp [router_nf] at hcontra)
    (by intro q hq; simp [app_prod] at hq)
    (by intro h hcontra; simp [app_prod] at hcontra)
    (by intro h hcontra; simp [app_prod] at hcontra)
    (JSONResponse [("error", "Not found")] 404)
    (by decide)

end Catzilla
